import Mathlib

/-!
# Verification of the xkcdfs-fuse namespace core (src/fs.rs)

Shallow embedding of the FUSE filesystem implementation in `src/fs.rs`.
Machine integers (u64, i64, u32, usize) are modelled as `Nat` / `Int`;
all inode arithmetic reachable under the claims stays far below `2^64`
(item ids are bounded by the latest id, and `n * 1000` for realistic ids
never wraps), so no modular reduction is inserted.  The remote HTTP fetch
performed by `get_latest_comic` is modelled as an oracle field `remote`
of the filesystem state: a fetch installs that record and its number.
File contents are byte sequences; strings are converted with a standard
UTF-8 encoder (`utf8Bytes`), matching Rust's `str::as_bytes`.
-/

deriving instance DecidableEq for Except

namespace XkcdFsModel

/-- Error codes returned by the filesystem operations (libc ENOENT / EINVAL). -/
inductive Errno where
  | ENOENT
  | EINVAL
  deriving DecidableEq, Repr

/-- `fuser::FileType` variants used by the code. -/
inductive FileType where
  | Directory
  | RegularFile
  | Symlink
  deriving DecidableEq, Repr

/-- `fuser::FileAttr`, restricted to the fields the code varies.  The four
timestamp fields are the constant `UNIX_EPOCH` in every attribute the code
builds and are omitted. -/
structure FileAttr where
  ino : Nat
  size : Nat
  blocks : Nat
  kind : FileType
  perm : Nat
  nlink : Nat
  uid : Nat
  gid : Nat
  rdev : Nat
  flags : Nat
  blksize : Nat
  deriving DecidableEq, Repr

/-- UTF-8 encoding of one scalar value, as in Rust's `str::as_bytes`. -/
def charUtf8 (c : Char) : List Nat :=
  let n := c.toNat
  if n < 0x80 then [n]
  else if n < 0x800 then [0xC0 ||| (n >>> 6), 0x80 ||| (n &&& 0x3F)]
  else if n < 0x10000 then
    [0xE0 ||| (n >>> 12), 0x80 ||| ((n >>> 6) &&& 0x3F), 0x80 ||| (n &&& 0x3F)]
  else
    [0xF0 ||| (n >>> 18), 0x80 ||| ((n >>> 12) &&& 0x3F),
     0x80 ||| ((n >>> 6) &&& 0x3F), 0x80 ||| (n &&& 0x3F)]

/-- The bytes of a Rust `&str` (its UTF-8 encoding). -/
def utf8Bytes (s : String) : List Nat :=
  s.data.flatMap charUtf8

/-- `XKCD_DESKTOP_CONTENT` from src/fs.rs. -/
def XKCD_DESKTOP_CONTENT : String :=
  "[Desktop Entry]\nType=Link\nName=XKCD\nURL=https://xkcd.com/\n"

/-- `ABOUT_CONTENT` from src/fs.rs (the Rust literal spans a physical line
break after the two `\n`, contributing a third newline). -/
def ABOUT_CONTENT : String :=
  "xkcdfs-fuse is a unaffilated fan project for looking at XKCD comics.\n\n\nxkcd is by Randall Munroe.\n"

/-- `DIR_ATTR` from src/fs.rs. -/
def DIR_ATTR : FileAttr :=
  { ino := 1, size := 0, blocks := 0, kind := .Directory, perm := 0o555,
    nlink := 2, uid := 1000, gid := 1000, rdev := 0, flags := 0, blksize := 512 }

/-- `XKCD_DESKTOP_ATTR` from src/fs.rs (`size = XKCD_DESKTOP_CONTENT.len()`). -/
def XKCD_DESKTOP_ATTR : FileAttr :=
  { ino := 2, size := (utf8Bytes XKCD_DESKTOP_CONTENT).length, blocks := 1,
    kind := .RegularFile, perm := 0o444, nlink := 1, uid := 1000, gid := 1000,
    rdev := 0, flags := 0, blksize := 512 }

/-- `ABOUT_ATTR` from src/fs.rs (`size = ABOUT_CONTENT.len()`). -/
def ABOUT_ATTR : FileAttr :=
  { ino := 3, size := (utf8Bytes ABOUT_CONTENT).length, blocks := 1,
    kind := .RegularFile, perm := 0o444, nlink := 1, uid := 1000, gid := 1000,
    rdev := 0, flags := 0, blksize := 512 }

/-- `XkcdComic` record from src/fs.rs. -/
structure XkcdComic where
  num : Nat
  year : String
  month : String
  day : String
  title : String
  alt : String
  img : String
  safe_title : String
  transcript : String
  link : String
  deriving Repr

/-- `XkcdFs` state from src/fs.rs.  The `http_client` field carries no state
that the operations observe; the remote endpoint it would query is modelled
by the oracle field `remote`: the record that `get_latest_comic`'s fetch of
`https://xkcd.com/info.0.json` would return. -/
structure XkcdFs where
  latest_num : Nat
  comics : Nat → Option XkcdComic
  remote : XkcdComic

/-- `COMIC_INODE_SHIFT` from src/fs.rs. -/
def COMIC_INODE_SHIFT : Nat := 1000

/-- `XkcdFs::get_latest_comic`: fetch the latest record (oracle `remote`),
record its number and cache it. -/
def get_latest_comic (fs : XkcdFs) : XkcdFs :=
  let comic := fs.remote
  { fs with
    latest_num := comic.num,
    comics := fun k => if k = comic.num then some comic else fs.comics k }

/-- `XkcdFs::get_latest_num`: fetch lazily when `latest_num == 0`. -/
def get_latest_num (fs : XkcdFs) : XkcdFs × Nat :=
  if fs.latest_num = 0 then
    let fs2 := get_latest_comic fs
    (fs2, fs2.latest_num)
  else (fs, fs.latest_num)

/-- `XkcdFs::create_file_attr` from src/fs.rs. -/
def create_file_attr (ino : Nat) (size : Nat) : FileAttr :=
  { ino := ino, size := size, blocks := 1, kind := .RegularFile, perm := 0o444,
    nlink := 1, uid := 1000, gid := 1000, rdev := 0, flags := 0, blksize := 512 }

/-- The attribute built in `get_file_attr`'s `n % COMIC_INODE_SHIFT == 0` arm. -/
def itemDirAttr (n : Nat) : FileAttr :=
  { ino := n, size := 0, blocks := 0, kind := .Directory, perm := 0o555,
    nlink := 2, uid := 1000, gid := 1000, rdev := 0, flags := 0, blksize := 512 }

/-- The attribute built in `get_file_attr`'s `100` arm (the "latest" symlink);
its size is the number of decimal digits of the latest id. -/
def latestAttr (latest : Nat) : FileAttr :=
  { ino := 100, size := (toString latest).length, blocks := 0, kind := .Symlink,
    perm := 0o444, nlink := 1, uid := 1000, gid := 1000, rdev := 0, flags := 0,
    blksize := 512 }

/-- `XkcdFs::get_file_attr` from src/fs.rs: the Rust `match` is a sequential
test, rendered as an if-chain in the same order. -/
def get_file_attr (fs : XkcdFs) (ino : Nat) : XkcdFs × Except Errno FileAttr :=
  if ino = 1 then (fs, .ok DIR_ATTR)
  else if ino = 2 then (fs, .ok XKCD_DESKTOP_ATTR)
  else if ino = 3 then (fs, .ok ABOUT_ATTR)
  else if ino = 100 then
    let p := get_latest_num fs
    (p.1, .ok (latestAttr p.2))
  else if ino % COMIC_INODE_SHIFT = 0 then (fs, .ok (itemDirAttr ino))
  else if ino % COMIC_INODE_SHIFT = 4 then (fs, .ok (create_file_attr ino 4096))
  else if ino % COMIC_INODE_SHIFT = 5 then (fs, .ok (create_file_attr ino 4096))
  else if ino % COMIC_INODE_SHIFT = 6 then (fs, .ok (create_file_attr ino 4096))
  else (fs, .error .ENOENT)

/-- The content selected by `read_data`'s `match ino`: only inodes 2 and 3
carry backing bytes; every other inode yields ENOENT there. -/
def contentOf (ino : Nat) : Option (List Nat) :=
  if ino = 2 then some (utf8Bytes XKCD_DESKTOP_CONTENT)
  else if ino = 3 then some (utf8Bytes ABOUT_CONTENT)
  else none

/-- `XkcdFs::read_data` from src/fs.rs.  `offset` is the i64 FUSE offset;
`size` the u32 requested length.  `saturating_add` on `usize` is plain
addition on `Nat` (no overflow). -/
def read_data (fs : XkcdFs) (ino : Nat) (offset : Int) (size : Nat) :
    Except Errno (List Nat) :=
  match contentOf ino with
  | none => .error .ENOENT
  | some data =>
    if offset < 0 then .error .EINVAL
    else if data.length ≤ offset.toNat then .ok []
    else
      let off := offset.toNat
      let e := min (off + size) data.length
      .ok ((data.drop off).take (e - off))

/-- Rust `str::parse::<u64>` digit loop: one or more ASCII digits, each step
bounded by `u64::MAX` (the running value is monotone, so per-step checks
equal a final check). -/
def parseU64core (cs : List Char) : Option Nat :=
  if cs.isEmpty then none
  else
    cs.foldl
      (fun acc c =>
        match acc with
        | none => none
        | some v =>
          if c.isDigit then
            let v2 := v * 10 + (c.toNat - 48)
            if v2 < 2 ^ 64 then some v2 else none
          else none)
      (some 0)

/-- Rust `str::parse::<u64>`: an optional leading `+`, then digits. -/
def parseU64 (s : String) : Option Nat :=
  match s.data with
  | '+' :: rest => parseU64core rest
  | cs => parseU64core cs

/-- The non-numeric tail of `lookup` (the `else if parent % SHIFT == 0` and
final `match (parent, name)` arms of src/fs.rs). -/
def lookupNonNumeric (fs : XkcdFs) (parent : Nat) (name : String) :
    XkcdFs × Except Errno FileAttr :=
  if parent % COMIC_INODE_SHIFT = 0 then
    if name = "title.txt" then get_file_attr fs 4
    else if name = "alt.txt" then get_file_attr fs 5
    else if name = "image.png" then get_file_attr fs 6
    else (fs, .error .ENOENT)
  else
    if parent = 1 ∧ name = "latest" then get_file_attr fs 100
    else if parent = 1 ∧ name = "xkcd.desktop" then get_file_attr fs 2
    else if parent = 1 ∧ name = "about.txt" then get_file_attr fs 3
    else (fs, .error .ENOENT)

/-- `Filesystem::lookup` from src/fs.rs, for names that are valid Unicode
(the `name.to_str()` EINVAL arm concerns byte sequences that are not UTF-8
and is outside this embedding).  The numeric branch runs first; its range
filter calls `get_latest_num` (possibly fetching) exactly when the parse
succeeded.  On success the resolved inode's attributes are returned via
`get_file_attr`. -/
def lookup (fs : XkcdFs) (parent : Nat) (name : String) :
    XkcdFs × Except Errno FileAttr :=
  match parseU64 name with
  | some n =>
    let p := get_latest_num fs
    if 1 ≤ n ∧ n ≤ p.2 then get_file_attr p.1 (n * COMIC_INODE_SHIFT)
    else lookupNonNumeric p.1 parent name
  | none => lookupNonNumeric fs parent name

/-- One directory entry as passed to `reply.add`: inode, type, name. -/
structure DirEntry where
  ino : Nat
  ftype : FileType
  name : String
  deriving DecidableEq, Repr

/-- The fixed first five entries of the root listing in `readdir`. -/
def rootFixedEntries : List DirEntry :=
  [⟨1, .Directory, "."⟩, ⟨1, .Directory, ".."⟩,
   ⟨2, .RegularFile, "xkcd.desktop"⟩, ⟨3, .RegularFile, "about.txt"⟩,
   ⟨100, .Directory, "latest"⟩]

/-- The numbered item entry pushed by `readdir`'s `for i in 1..latest` loop. -/
def itemDirEntry (i : Nat) : DirEntry :=
  ⟨i * COMIC_INODE_SHIFT, .Directory, toString i⟩

/-- The `entries` vector `Filesystem::readdir` builds for a directory inode
(ENOENT when the inode is neither root nor `% COMIC_INODE_SHIFT == 0`).
The loop `for i in 1..latest` yields `1, …, latest - 1` in ascending order:
`List.range' 1 (latest - 1)`. -/
def readdirEntries (fs : XkcdFs) (ino : Nat) :
    XkcdFs × Except Errno (List DirEntry) :=
  if ino = 1 then
    let p := get_latest_num fs
    (p.1, .ok (rootFixedEntries ++ (List.range' 1 (p.2 - 1)).map itemDirEntry))
  else if ino % COMIC_INODE_SHIFT = 0 then
    (fs, .ok [⟨ino, .Directory, "."⟩, ⟨1, .Directory, ".."⟩,
              ⟨ino + 4, .RegularFile, "title.txt"⟩,
              ⟨ino + 5, .RegularFile, "alt.txt"⟩,
              ⟨ino + 6, .RegularFile, "image.png"⟩])
  else (fs, .error .ENOENT)

/-- One `readdir` call: the delivery loop `enumerate().skip(offset)` with a
consumer buffer holding `cap` entries (`reply.add` reports full, dropping the
entry, after `cap` successes); each delivered entry at enumerate-index `i` is
tagged with resumption cursor `i + 1`, so a caller that resumes at the cursor
after the last delivered entry resumes at `offset + (delivered length)`. -/
def readdirDeliver (entries : List DirEntry) (offset cap : Nat) : List DirEntry :=
  (entries.drop offset).take cap

/-- Successive resumed `readdir` calls with consumer capacities `caps`,
starting at cursor `off`, each next call resuming immediately after the last
delivered entry. -/
def deliverSeq (l : List DirEntry) : List Nat → Nat → List DirEntry
  | [], _ => []
  | c :: cs, off =>
    let chunk := readdirDeliver l off c
    chunk ++ deliverSeq l cs (off + chunk.length)

/-! ## Sample session states for concrete evaluation -/

/-- A sample latest record used by the concrete session states below. -/
def sampleComic : XkcdComic :=
  { num := 3000, year := "2024", month := "6", day := "1", title := "Sample",
    alt := "Alt text", img := "https://example.org/sample.png",
    safe_title := "Sample", transcript := "", link := "" }

/-- A session whose latest id 3000 is already fetched and cached. -/
def fs3000 : XkcdFs :=
  { latest_num := 3000,
    comics := fun k => if k = 3000 then some sampleComic else none,
    remote := sampleComic }

/-- A small session whose latest id is 3. -/
def fs3 : XkcdFs :=
  { latest_num := 3, comics := fun _ => none,
    remote := { sampleComic with num := 3 } }

/-! ## Helper lemmas -/

/-- Once the latest id is known (nonzero), `get_latest_num` is a pure read. -/
theorem get_latest_num_of_ne (fs : XkcdFs) (hl : fs.latest_num ≠ 0) :
    get_latest_num fs = (fs, fs.latest_num) := by
  unfold get_latest_num
  rw [if_neg hl]

/-- `get_file_attr` on an item-directory inode `m * COMIC_INODE_SHIFT`
(for a positive id) yields the directory attribute. -/
theorem get_file_attr_mul_shift (fs : XkcdFs) (m : Nat) (hm : 1 ≤ m) :
    get_file_attr fs (m * COMIC_INODE_SHIFT) =
      (fs, .ok (itemDirAttr (m * COMIC_INODE_SHIFT))) := by
  have hs : COMIC_INODE_SHIFT = 1000 := rfl
  have hge : COMIC_INODE_SHIFT ≤ m * COMIC_INODE_SHIFT :=
    Nat.le_mul_of_pos_left COMIC_INODE_SHIFT hm
  unfold get_file_attr
  rw [if_neg (by omega), if_neg (by omega), if_neg (by omega), if_neg (by omega),
    if_pos (Nat.mul_mod_left m COMIC_INODE_SHIFT)]

/-- A name accepted by `parseU64` (an optional `+` then digits) is none of
the fixed child names appearing in `lookup`. -/
theorem parseU64_not_fixed (name : String) (n : Nat)
    (hp : parseU64 name = some n) :
    name ≠ "latest" ∧ name ≠ "xkcd.desktop" ∧ name ≠ "about.txt" ∧
    name ≠ "title.txt" ∧ name ≠ "alt.txt" ∧ name ≠ "image.png" := by
  refine ⟨?_, ?_, ?_, ?_, ?_, ?_⟩ <;>
    (rintro rfl; revert hp) <;>
    (rw [show parseU64 _ = none from by decide]; rintro ⟨⟩)

/-! ## Claim C1 -/

/-- C1 counterexample: with latest id 3000, `lookup(root, "3000")` resolves to
the item directory inode 3000000 — not NotFound as the claim's strict-less-than
rule requires. -/
theorem lookup_latest_by_number_counterexample :
    (lookup fs3000 1 "3000").2 = Except.ok (itemDirAttr 3000000) ∧
    Except.ok (itemDirAttr 3000000) ≠
      (Except.error Errno.ENOENT : Except Errno FileAttr) := by
  exact ⟨by decide, by decide⟩

/-- C1 (amended): with a known latest id, `lookup` under root of a name that
parses as integer `n` resolves to the item directory inode
`n * COMIC_INODE_SHIFT` exactly when `1 ≤ n ≤ latest` (inclusive of the
latest id), and returns NotFound when `n = 0` or `n > latest`. -/
theorem lookup_root_numeric_range (fs : XkcdFs) (name : String) (n : Nat)
    (hl : fs.latest_num ≠ 0) (hp : parseU64 name = some n) :
    (1 ≤ n ∧ n ≤ fs.latest_num →
      (lookup fs 1 name).2 = Except.ok (itemDirAttr (n * COMIC_INODE_SHIFT))) ∧
    (¬(1 ≤ n ∧ n ≤ fs.latest_num) →
      (lookup fs 1 name).2 = Except.error Errno.ENOENT) := by
  obtain ⟨hn1, hn2, hn3, -, -, -⟩ := parseU64_not_fixed name n hp
  constructor
  · rintro ⟨h1, h2⟩
    unfold lookup
    rw [hp]
    simp only [get_latest_num_of_ne fs hl]
    rw [if_pos ⟨h1, h2⟩, get_file_attr_mul_shift fs n h1]
  · intro hnot
    unfold lookup
    rw [hp]
    simp only [get_latest_num_of_ne fs hl]
    rw [if_neg hnot]
    unfold lookupNonNumeric
    rw [if_neg (by decide), if_neg (fun h => hn1 h.2), if_neg (fun h => hn2 h.2),
      if_neg (fun h => hn3 h.2)]

/-- C1 witness: latest id 3000; "2999" resolves, "3001" is NotFound. -/
theorem lookup_root_numeric_range_witness :
    (lookup fs3000 1 "2999").2 =
      Except.ok (itemDirAttr (2999 * COMIC_INODE_SHIFT)) ∧
    (lookup fs3000 1 "3001").2 = Except.error Errno.ENOENT :=
  ⟨(lookup_root_numeric_range fs3000 "2999" 2999 (by decide) (by decide)).1
      ⟨by decide, by decide⟩,
   (lookup_root_numeric_range fs3000 "3001" 3001 (by decide) (by decide)).2
      (by decide)⟩

/-! ## Claim C2 -/

/-- C2 (code bug exhibit): `lookup` inside the item directory of id 2999
resolves "title.txt" to the bare inode 4 (the code assigns `ino = 4`, not
`parent + 4`), while `readdir` of the same directory reports "title.txt" at
inode `2999 * COMIC_INODE_SHIFT + 4`; the two inodes differ. -/
theorem lookup_item_field_inode_mismatch (fs : XkcdFs) :
    (lookup fs (2999 * COMIC_INODE_SHIFT) "title.txt").2 =
      Except.ok (create_file_attr 4 4096) ∧
    (readdirEntries fs (2999 * COMIC_INODE_SHIFT)).2 =
      Except.ok [⟨2999 * COMIC_INODE_SHIFT, .Directory, "."⟩,
        ⟨1, .Directory, ".."⟩,
        ⟨2999 * COMIC_INODE_SHIFT + 4, .RegularFile, "title.txt"⟩,
        ⟨2999 * COMIC_INODE_SHIFT + 5, .RegularFile, "alt.txt"⟩,
        ⟨2999 * COMIC_INODE_SHIFT + 6, .RegularFile, "image.png"⟩] ∧
    (create_file_attr 4 4096).ino ≠ 2999 * COMIC_INODE_SHIFT + 4 := by
  refine ⟨rfl, rfl, by decide⟩

/-! ## Claim C3 -/

/-- C3 (code bug exhibit): `read_data` serves bytes only for inodes 2 and 3;
reading the title field file of item 2999 (inode `2999 * SHIFT + 4`) at
offset 1 with length 2 returns ENOENT instead of the cached title bytes,
whatever the cache holds. -/
theorem read_item_field_enoent (fs : XkcdFs) :
    read_data fs (2999 * COMIC_INODE_SHIFT + 4) 1 2 =
      Except.error Errno.ENOENT ∧
    (∀ ino : Nat, contentOf ino ≠ none → ino = 2 ∨ ino = 3) := by
  constructor
  · rfl
  · intro ino h
    by_cases h2 : ino = 2
    · exact Or.inl h2
    · by_cases h3 : ino = 3
      · exact Or.inr h3
      · exact absurd (by simp [contentOf, h2, h3]) h

/-! ## Claim C4 -/

/-- A content-bearing inode never reads as ENOENT: once `contentOf` matches,
`read_data` returns EINVAL, an empty success, or a slice. -/
theorem read_data_content_ne_enoent (fs : XkcdFs) (ino : Nat) (offset : Int)
    (size : Nat) (data : List Nat) (hc : contentOf ino = some data) :
    read_data fs ino offset size ≠ Except.error Errno.ENOENT := by
  have hrd : read_data fs ino offset size =
      (if offset < 0 then .error .EINVAL
       else if data.length ≤ offset.toNat then .ok []
       else .ok ((data.drop offset.toNat).take
         (min (offset.toNat + size) data.length - offset.toNat))) := by
    unfold read_data
    rw [hc]
  rw [hrd]
  split_ifs <;> simp

/-- C4 counterexample: the attribute operation does NOT return NotFound for
inode 0 (the `% SHIFT == 0` arm serves it as a directory) nor for the bare
inodes 4, 5, 6 (the `% SHIFT == 4/5/6` arms serve them as 4096-byte regular
files), although the claim names these values as unassigned. -/
theorem unassigned_inode_attr_counterexample :
    (get_file_attr fs3000 0).2 = Except.ok (itemDirAttr 0) ∧
    (get_file_attr fs3000 4).2 = Except.ok (create_file_attr 4 4096) ∧
    (get_file_attr fs3000 5).2 = Except.ok (create_file_attr 5 4096) ∧
    (get_file_attr fs3000 6).2 = Except.ok (create_file_attr 6 4096) :=
  ⟨rfl, rfl, rfl, rfl⟩

/-- C4 (amended): for every session state, inode, offset, and size, the
attribute operation returns NotFound EXACTLY when the inode is outside
{1,2,3,100} and its remainder mod `COMIC_INODE_SHIFT` is outside {0,4,5,6}
(id validity is never checked); `read_data` returns NotFound exactly when the
inode is neither 2 nor 3, at every offset and size; and `lookup` under a
parent that is neither the root nor `% COMIC_INODE_SHIFT == 0` returns
NotFound for every name that does not parse as an integer. -/
theorem unassigned_inode_enoent (fs : XkcdFs) (ino : Nat) (offset : Int)
    (size : Nat) (name : String) (hn : parseU64 name = none) :
    ((get_file_attr fs ino).2 = Except.error Errno.ENOENT ↔
      ino ∉ ([1, 2, 3, 100] : List Nat) ∧
      ino % COMIC_INODE_SHIFT ∉ ([0, 4, 5, 6] : List Nat)) ∧
    (read_data fs ino offset size = Except.error Errno.ENOENT ↔
      ino ≠ 2 ∧ ino ≠ 3) ∧
    (ino ≠ 1 → ino % COMIC_INODE_SHIFT ≠ 0 →
      (lookup fs ino name).2 = Except.error Errno.ENOENT) := by
  refine ⟨?_, ?_, ?_⟩
  · by_cases e1 : ino = 1
    · subst e1
      simp [get_file_attr]
    · by_cases e2 : ino = 2
      · subst e2
        simp [get_file_attr]
      · by_cases e3 : ino = 3
        · subst e3
          simp [get_file_attr]
        · by_cases e4 : ino = 100
          · subst e4
            simp [get_file_attr]
          · by_cases m0 : ino % COMIC_INODE_SHIFT = 0
            · simp [get_file_attr, e1, e2, e3, e4, m0]
            · by_cases m4 : ino % COMIC_INODE_SHIFT = 4
              · simp [get_file_attr, e1, e2, e3, e4, m0, m4]
              · by_cases m5 : ino % COMIC_INODE_SHIFT = 5
                · simp [get_file_attr, e1, e2, e3, e4, m0, m4, m5]
                · by_cases m6 : ino % COMIC_INODE_SHIFT = 6
                  · simp [get_file_attr, e1, e2, e3, e4, m0, m4, m5, m6]
                  · simp [get_file_attr, e1, e2, e3, e4, m0, m4, m5, m6]
  · constructor
    · intro herr
      constructor
      · rintro rfl
        exact read_data_content_ne_enoent fs 2 offset size
          (utf8Bytes XKCD_DESKTOP_CONTENT) rfl herr
      · rintro rfl
        exact read_data_content_ne_enoent fs 3 offset size
          (utf8Bytes ABOUT_CONTENT) rfl herr
    · rintro ⟨h2, h3⟩
      unfold read_data contentOf
      rw [if_neg h2, if_neg h3]
  · intro h1 hm
    have hred : lookup fs ino name = lookupNonNumeric fs ino name := by
      unfold lookup
      rw [hn]
    rw [hred]
    unfold lookupNonNumeric
    rw [if_neg hm, if_neg (fun h => h1 h.1), if_neg (fun h => h1 h.1),
      if_neg (fun h => h1 h.1)]

/-- C4 witness: inode 7 with name "foo" hits all three NotFound paths, and
inode 2 (content-bearing) does not read as NotFound. -/
theorem unassigned_inode_enoent_witness :
    (get_file_attr fs3000 7).2 = Except.error Errno.ENOENT ∧
    read_data fs3000 7 0 1 = Except.error Errno.ENOENT ∧
    (lookup fs3000 7 "foo").2 = Except.error Errno.ENOENT ∧
    ¬read_data fs3000 2 0 1 = Except.error Errno.ENOENT :=
  ⟨((unassigned_inode_enoent fs3000 7 0 1 "foo" (by decide)).1).mpr
      (by decide),
   ((unassigned_inode_enoent fs3000 7 0 1 "foo" (by decide)).2.1).mpr
      (by decide),
   (unassigned_inode_enoent fs3000 7 0 1 "foo" (by decide)).2.2 (by decide)
      (by decide),
   fun h => (by decide : ¬((2 : Nat) ≠ 2 ∧ (2 : Nat) ≠ 3))
      (((unassigned_inode_enoent fs3000 2 0 1 "foo" (by decide)).2.1).mp h)⟩

/-! ## Claim C5 -/

/-- C5: the content-window law of `read_data` for every content-bearing
inode: negative offset is InvalidArgument; offset at or past the content
length yields an empty success; otherwise exactly
`min len (L - offset)` bytes of the content starting at `offset`. -/
theorem read_window_law (fs : XkcdFs) (ino : Nat) (offset : Int) (len : Nat)
    (data : List Nat) (hc : contentOf ino = some data) :
    (offset < 0 → read_data fs ino offset len = Except.error Errno.EINVAL) ∧
    (0 ≤ offset → data.length ≤ offset.toNat →
      read_data fs ino offset len = Except.ok []) ∧
    (0 ≤ offset → offset.toNat < data.length →
      read_data fs ino offset len =
        Except.ok ((data.drop offset.toNat).take len) ∧
      ((data.drop offset.toNat).take len).length =
        min len (data.length - offset.toNat)) := by
  have hrd : read_data fs ino offset len =
      (if offset < 0 then .error .EINVAL
       else if data.length ≤ offset.toNat then .ok []
       else .ok ((data.drop offset.toNat).take
         (min (offset.toNat + len) data.length - offset.toNat))) := by
    unfold read_data
    rw [hc]
  refine ⟨?_, ?_, ?_⟩
  · intro hneg
    rw [hrd, if_pos hneg]
  · intro hpos hbeyond
    rw [hrd, if_neg (not_lt.mpr hpos), if_pos hbeyond]
  · intro hpos hlt
    have hdl : (data.drop offset.toNat).length = data.length - offset.toNat :=
      List.length_drop _ _
    constructor
    · rw [hrd, if_neg (not_lt.mpr hpos), if_neg (not_le.mpr hlt)]
      congr 1
      apply List.take_eq_take.mpr
      rw [hdl]
      omega
    · rw [List.length_take, hdl]

/-- C5 witness: on the desktop file (58 bytes): negative offset, read past
EOF, and a 2-byte window at offset 1. -/
theorem read_window_law_witness :
    read_data fs3000 2 (-1) 5 = Except.error Errno.EINVAL ∧
    read_data fs3000 2 100 5 = Except.ok [] ∧
    read_data fs3000 2 1 2 =
      Except.ok (((utf8Bytes XKCD_DESKTOP_CONTENT).drop 1).take 2) :=
  ⟨(read_window_law fs3000 2 (-1) 5 (utf8Bytes XKCD_DESKTOP_CONTENT) rfl).1
      (by decide),
   (read_window_law fs3000 2 100 5 (utf8Bytes XKCD_DESKTOP_CONTENT) rfl).2.1
      (by decide) (by decide),
   ((read_window_law fs3000 2 1 2 (utf8Bytes XKCD_DESKTOP_CONTENT) rfl).2.2
      (by decide) (by decide)).1⟩

/-! ## Claim C6 -/

/-- C6 counterexample: numeric-name resolution is NOT restricted to the root:
inside the item directory of id 2999, the name "5" (in range for latest id
3000) resolves to item directory inode 5000 instead of NotFound. -/
theorem numeric_lookup_nonroot_counterexample :
    (lookup fs3000 (2999 * COMIC_INODE_SHIFT) "5").2 =
      Except.ok (itemDirAttr (5 * COMIC_INODE_SHIFT)) ∧
    Except.ok (itemDirAttr (5 * COMIC_INODE_SHIFT)) ≠
      (Except.error Errno.ENOENT : Except Errno FileAttr) := by
  exact ⟨by decide, by decide⟩

/-- C6 (amended): the numeric branch of `lookup` runs before any parent
check, so an in-range numeric name resolves to its item directory under
EVERY parent; for names that do not parse, an item-directory parent resolves
only the three fixed names, and any other non-root parent resolves
nothing. -/
theorem lookup_numeric_any_parent (fs : XkcdFs) (parent : Nat) (name : String)
    (hl : fs.latest_num ≠ 0) :
    (∀ n, parseU64 name = some n → 1 ≤ n → n ≤ fs.latest_num →
      (lookup fs parent name).2 =
        Except.ok (itemDirAttr (n * COMIC_INODE_SHIFT))) ∧
    (parseU64 name = none → parent % COMIC_INODE_SHIFT = 0 →
      name ≠ "title.txt" → name ≠ "alt.txt" → name ≠ "image.png" →
      (lookup fs parent name).2 = Except.error Errno.ENOENT) ∧
    (parseU64 name = none → parent % COMIC_INODE_SHIFT ≠ 0 → parent ≠ 1 →
      (lookup fs parent name).2 = Except.error Errno.ENOENT) := by
  refine ⟨?_, ?_, ?_⟩
  · intro n hp h1 h2
    unfold lookup
    rw [hp]
    simp only [get_latest_num_of_ne fs hl]
    rw [if_pos ⟨h1, h2⟩, get_file_attr_mul_shift fs n h1]
  · intro hn hpar ht ha hi
    have hred : lookup fs parent name = lookupNonNumeric fs parent name := by
      unfold lookup
      rw [hn]
    rw [hred]
    unfold lookupNonNumeric
    rw [if_pos hpar, if_neg ht, if_neg ha, if_neg hi]
  · intro hn hpar hroot
    have hred : lookup fs parent name = lookupNonNumeric fs parent name := by
      unfold lookup
      rw [hn]
    rw [hred]
    unfold lookupNonNumeric
    rw [if_neg hpar, if_neg (fun h => hroot h.1), if_neg (fun h => hroot h.1),
      if_neg (fun h => hroot h.1)]

/-- C6 witness: "42" resolves under the item directory of 2999; "foo" is
NotFound there; "bar" is NotFound under the unassigned parent 77. -/
theorem lookup_numeric_any_parent_witness :
    (lookup fs3000 (2999 * COMIC_INODE_SHIFT) "42").2 =
      Except.ok (itemDirAttr (42 * COMIC_INODE_SHIFT)) ∧
    (lookup fs3000 (2999 * COMIC_INODE_SHIFT) "foo").2 =
      Except.error Errno.ENOENT ∧
    (lookup fs3000 77 "bar").2 = Except.error Errno.ENOENT :=
  ⟨(lookup_numeric_any_parent fs3000 (2999 * COMIC_INODE_SHIFT) "42"
      (by decide)).1 42 (by decide) (by decide) (by decide),
   (lookup_numeric_any_parent fs3000 (2999 * COMIC_INODE_SHIFT) "foo"
      (by decide)).2.1 (by decide) (by decide) (by decide) (by decide)
      (by decide),
   (lookup_numeric_any_parent fs3000 77 "bar" (by decide)).2.2 (by decide)
      (by decide) (by decide)⟩

/-! ## Claim C7 -/

/-- C7: root enumeration emits, in order, self, parent, the desktop file,
the about file, the latest alias, then the item directories `1, …, latest-1`
in strictly ascending numeric order (excluding the latest id); item-directory
enumeration emits self, parent, title.txt, alt.txt, image.png in order. -/
theorem readdir_order (fs : XkcdFs) (hl : fs.latest_num ≠ 0) :
    ((readdirEntries fs 1).2 = Except.ok (rootFixedEntries ++
        (List.range' 1 (fs.latest_num - 1)).map itemDirEntry)) ∧
    List.Pairwise (· < ·) (List.range' 1 (fs.latest_num - 1)) ∧
    (∀ i, i ∈ List.range' 1 (fs.latest_num - 1) ↔
      1 ≤ i ∧ i < fs.latest_num) ∧
    (∀ m, 1 ≤ m →
      (readdirEntries fs (m * COMIC_INODE_SHIFT)).2 =
        Except.ok [⟨m * COMIC_INODE_SHIFT, .Directory, "."⟩,
          ⟨1, .Directory, ".."⟩,
          ⟨m * COMIC_INODE_SHIFT + 4, .RegularFile, "title.txt"⟩,
          ⟨m * COMIC_INODE_SHIFT + 5, .RegularFile, "alt.txt"⟩,
          ⟨m * COMIC_INODE_SHIFT + 6, .RegularFile, "image.png"⟩]) := by
  refine ⟨?_, ?_, ?_, ?_⟩
  · unfold readdirEntries
    rw [if_pos rfl]
    simp only [get_latest_num_of_ne fs hl]
  · exact List.pairwise_lt_range' 1 (fs.latest_num - 1)
  · intro i
    rw [List.mem_range'_1]
    omega
  · intro m hm
    have hs : COMIC_INODE_SHIFT = 1000 := rfl
    have hge : COMIC_INODE_SHIFT ≤ m * COMIC_INODE_SHIFT :=
      Nat.le_mul_of_pos_left COMIC_INODE_SHIFT hm
    unfold readdirEntries
    rw [if_neg (by omega), if_pos (Nat.mul_mod_left m COMIC_INODE_SHIFT)]

/-- C7 witness: latest id 3 lists items 1 and 2 after the fixed entries;
item directory 1000 lists its five entries. -/
theorem readdir_order_witness :
    ((readdirEntries fs3 1).2 = Except.ok (rootFixedEntries ++
        (List.range' 1 (fs3.latest_num - 1)).map itemDirEntry)) ∧
    (readdirEntries fs3 (1 * COMIC_INODE_SHIFT)).2 =
      Except.ok [⟨1 * COMIC_INODE_SHIFT, .Directory, "."⟩,
        ⟨1, .Directory, ".."⟩,
        ⟨1 * COMIC_INODE_SHIFT + 4, .RegularFile, "title.txt"⟩,
        ⟨1 * COMIC_INODE_SHIFT + 5, .RegularFile, "alt.txt"⟩,
        ⟨1 * COMIC_INODE_SHIFT + 6, .RegularFile, "image.png"⟩] :=
  ⟨(readdir_order fs3 (by decide)).1,
   (readdir_order fs3 (by decide)).2.2.2 1 (by decide)⟩

/-! ## Claim C8 -/

/-- Resumed delivery from cursor `off` with any capacities delivers the
first `caps.sum` remaining entries, in order. -/
theorem deliverSeq_eq (l : List DirEntry) (caps : List Nat) (off : Nat) :
    deliverSeq l caps off = (l.drop off).take caps.sum := by
  induction caps generalizing off with
  | nil =>
    simp [deliverSeq]
  | cons c cs ih =>
    simp only [deliverSeq, readdirDeliver, ih, List.sum_cons, List.length_take,
      List.length_drop]
    rcases le_or_lt c (l.length - off) with h | h
    · rw [min_eq_left h, List.take_add]
      have hdd : (l.drop off).drop c = l.drop (off + c) := List.drop_drop c off l
      rw [hdd]
    · have htc : List.take c (List.drop off l) = List.drop off l :=
        List.take_of_length_le (by rw [List.length_drop]; omega)
      have hdn : List.drop (off + (l.length - off)) l = [] :=
        List.drop_eq_nil_of_le (by omega)
      have hts : List.take (c + cs.sum) (List.drop off l) = List.drop off l :=
        List.take_of_length_le (by rw [List.length_drop]; omega)
      rw [min_eq_right (le_of_lt h), htc, hdn, List.take_nil, List.append_nil,
        hts]

/-- C8: directory enumeration is resumable without loss or duplication: for
any directory whose entry list the code produces, any sequence of consumer
buffer capacities whose total covers the list — each call resumed at the
cursor just past the last delivered entry — delivers exactly the full ordered
entry list of a single unbounded call; and (latest id known) the enumeration
does not change the session state, so the entry list is stable across the
resumed calls. -/
theorem readdir_resumable (fs : XkcdFs) (ino : Nat) (entries : List DirEntry)
    (caps : List Nat) (hl : fs.latest_num ≠ 0)
    (he : (readdirEntries fs ino).2 = Except.ok entries)
    (hcov : entries.length ≤ caps.sum) :
    deliverSeq entries caps 0 = entries ∧ (readdirEntries fs ino).1 = fs := by
  constructor
  · rw [deliverSeq_eq, List.drop_zero]
    exact List.take_of_length_le hcov
  · by_cases h1 : ino = 1
    · subst h1
      unfold readdirEntries
      rw [if_pos rfl]
      simp only [get_latest_num_of_ne fs hl]
    · by_cases h2 : ino % COMIC_INODE_SHIFT = 0
      · unfold readdirEntries
        rw [if_neg h1, if_pos h2]
      · unfold readdirEntries
        rw [if_neg h1, if_neg h2]

/-- C8 witness: the 7-entry root listing of latest id 3, delivered in resumed
calls of capacities 2, 0, 3, 4. -/
theorem readdir_resumable_witness :
    deliverSeq (rootFixedEntries ++ (List.range' 1 2).map itemDirEntry)
        [2, 0, 3, 4] 0 =
      rootFixedEntries ++ (List.range' 1 2).map itemDirEntry ∧
    (readdirEntries fs3 1).1 = fs3 :=
  readdir_resumable fs3 1
    (rootFixedEntries ++ (List.range' 1 2).map itemDirEntry) [2, 0, 3, 4]
    (by decide) rfl (by decide)

/-! ## Claim C9 -/

/-- C9 counterexample: the desktop-link content is 58 bytes, not 59, and the
reported size equals 58. -/
theorem desktop_size_counterexample :
    XKCD_DESKTOP_ATTR.size ≠ 59 ∧
    (utf8Bytes XKCD_DESKTOP_CONTENT).length ≠ 59 := by
  exact ⟨by decide, by decide⟩

set_option maxRecDepth 10000 in
/-- C9 (amended): `lookup(root, "xkcd.desktop")` resolves (in any session
state, without touching it) to inode 2 with kind regular-file; its reported
size is 58 bytes and equals the byte length of the fixed content, and reading
the whole window returns exactly those bytes. -/
theorem lookup_desktop (fs : XkcdFs) :
    lookup fs 1 "xkcd.desktop" = (fs, Except.ok XKCD_DESKTOP_ATTR) ∧
    XKCD_DESKTOP_ATTR.ino = 2 ∧
    XKCD_DESKTOP_ATTR.kind = FileType.RegularFile ∧
    XKCD_DESKTOP_ATTR.size = (utf8Bytes XKCD_DESKTOP_CONTENT).length ∧
    (utf8Bytes XKCD_DESKTOP_CONTENT).length = 58 ∧
    read_data fs 2 0 58 = Except.ok (utf8Bytes XKCD_DESKTOP_CONTENT) := by
  exact ⟨rfl, rfl, rfl, rfl, by decide, rfl⟩

/-! ## Claim C10 -/

/-- C10: root enumeration reports the entry named "latest" (inode 100) with
type Directory, while the attribute operation reports inode 100 with kind
Symlink — the two protocol operations disagree on the latest alias's kind. -/
theorem latest_kind_mismatch (fs : XkcdFs) (hl : fs.latest_num ≠ 0) :
    (∃ l, (readdirEntries fs 1).2 = Except.ok l ∧
      (⟨100, FileType.Directory, "latest"⟩ : DirEntry) ∈ l ∧
      ∀ e ∈ l, e.name = "latest" → e.ftype = FileType.Directory) ∧
    (get_file_attr fs 100).2 = Except.ok (latestAttr fs.latest_num) ∧
    (latestAttr fs.latest_num).kind = FileType.Symlink ∧
    FileType.Directory ≠ FileType.Symlink := by
  refine ⟨?_, ?_, rfl, by decide⟩
  · refine ⟨rootFixedEntries ++
      (List.range' 1 (fs.latest_num - 1)).map itemDirEntry, ?_, ?_, ?_⟩
    · unfold readdirEntries
      rw [if_pos rfl]
      simp only [get_latest_num_of_ne fs hl]
    · exact List.mem_append_left _ (by decide)
    · intro e he hname
      rcases List.mem_append.mp he with h | h
      · simp only [rootFixedEntries, List.mem_cons, List.not_mem_nil,
          or_false] at h
        rcases h with rfl | rfl | rfl | rfl | rfl
        · rfl
        · rfl
        · exact absurd hname (by decide)
        · exact absurd hname (by decide)
        · rfl
      · obtain ⟨i, -, rfl⟩ := List.mem_map.mp h
        rfl
  · unfold get_file_attr
    rw [if_neg (by decide), if_neg (by decide), if_neg (by decide),
      if_pos rfl]
    simp only [get_latest_num_of_ne fs hl]

/-- C10 witness: with latest id 3000 the "latest" entry appears as a
Directory in the root listing while its attribute kind is Symlink. -/
theorem latest_kind_mismatch_witness :
    (get_file_attr fs3000 100).2 =
      Except.ok (latestAttr fs3000.latest_num) ∧
    (latestAttr fs3000.latest_num).kind = FileType.Symlink :=
  ⟨(latest_kind_mismatch fs3000 (by decide)).2.1,
   (latest_kind_mismatch fs3000 (by decide)).2.2.1⟩

end XkcdFsModel
